import Mathlib

/-!
Verification of the EMR-Dashboard data-processing core.

This file shallowly embeds the data-processing and aggregation engine of the
EMR dashboard (src/lib/data-processing.ts, the upload pipeline in
src/context/EmrDataContext.tsx, and the per-record CSV export of the dashboard
page) and proves or refutes the specification claims about it.

Modelling conventions:
* JavaScript numbers are modelled as exact rationals (`ℚ`); the source's
  NaN/Infinity guards are noted where they become vacuous under this model.
* Timestamps are modelled as `Option Int` (milliseconds since the epoch);
  `none` stands for an absent, empty, or unparseable timestamp, merging the
  source's falsy-string check and its `isNaN(parseISO(...).getTime())` check,
  both of which route to the same sentinel result.
* Day keys are `yyyy-MM-dd` strings compared lexicographically, as in the
  source (`localeCompare` on ISO-format day keys).
* JavaScript's stable `Array.prototype.sort` with a consistent comparator is
  modelled by `List.insertionSort`, which is stable and structural.
-/

/-- Clamp helper from `computeHealthSummary`: `Math.max(min, Math.min(max, n))`. -/
def clamp (n mn mx : ℚ) : ℚ := max mn (min mx n)

/-- Embeds `calculateAverage` (data-processing.ts). The source first filters
out NaN/±Infinity entries; over `ℚ` every value is finite, so that filter is
the identity and the function reduces to the guarded mean. -/
def calculateAverage (numbers : List ℚ) : ℚ :=
  if numbers.isEmpty then 0 else numbers.sum / numbers.length

/-- Embeds `calculateMemoryUsagePercent` (data-processing.ts lines 109-129):
0 when total is zero, 0 when either input is negative, capped at 100 when
allocated exceeds total, otherwise the exact ratio times 100. The `typeof`
guard of the source is vacuous in a typed embedding. -/
def calculateMemoryUsagePercent (allocatedMB totalMB : ℚ) : ℚ :=
  if totalMB = 0 then 0
  else if allocatedMB < 0 ∨ totalMB < 0 then 0
  else if allocatedMB > totalMB then 100
  else allocatedMB / totalMB * 100

/-- Embeds `calculateRuntimeHours` (data-processing.ts lines 137-165) over
parse results. `none` covers the source's empty-string guard and its
invalid-parse guard, both of which return 0. `differenceInHours` truncates
the millisecond difference to whole hours; it is only reached when
`endTime ≥ creation`, where integer division is that truncation. -/
def calculateRuntimeHours (creation endTime : Option Int) : ℚ :=
  match creation, endTime with
  | some s, some e =>
      if e < s then 0
      else max 0 (((e - s) / 3600000 : Int) : ℚ)
  | _, _ => 0

/-- Embeds the inline memory-usage computation of `handleExportDashboard`
(dashboard page): `(total && total > 0) ? ((allocated || 0) / total) * 100 : 0`.
The optional fields of `EmrCluster` are modelled as `Option ℚ`; `none` and 0
are both falsy for the guard, and `allocated || 0` maps `none` to 0. Note
there is no cap at 100 and no negative-input guard here. -/
def dashboardExportMemoryUsagePercent (allocatedMB totalMB : Option ℚ) : ℚ :=
  match totalMB with
  | some t => if 0 < t then (allocatedMB.getD 0) / t * 100 else 0
  | none => 0

/-- Embeds the inline runtime computation of `handleExportDashboard`
(dashboard page): `end ? Math.abs(end - start) / (1000*60*60) : 0`, a
fractional absolute difference in hours. Note the absolute value: an end
time before the creation time still yields a positive number here. -/
def dashboardExportRuntimeHours (creationMs : Int) (endMs : Option Int) : ℚ :=
  match endMs with
  | some e => |((e : ℚ) - (creationMs : ℚ))| / (1000 * 60 * 60)
  | none => 0

/-- Daily aggregated metrics, mirroring interface `DailyMetrics`. -/
structure DailyMetrics where
  date : String
  avgMemoryUsagePercent : ℚ
  avgYARNMemoryAvailablePercent : ℚ
  avgRuntimeHours : ℚ
  avgRemainingCapacityGB : ℚ
  clusterCount : Nat
  clusters : List String
  avgUnhealthyNodes : ℚ
deriving DecidableEq, Repr, Inhabited

/-- Weekly KPI metrics, mirroring interface `WeeklyKPIs`. `clusterCount` is a
`ℚ` because the same shape carries percentage deltas in `calculateKPIDeltas`. -/
structure WeeklyKPIs where
  avgMemoryUsagePercent : ℚ
  avgYARNMemoryAvailablePercent : ℚ
  avgRuntimeHours : ℚ
  avgRemainingCapacityGB : ℚ
  clusterCount : ℚ
deriving DecidableEq, Repr, Inhabited

/-- The all-zero KPI result returned for empty inputs. -/
def zeroWeeklyKPIs : WeeklyKPIs :=
  { avgMemoryUsagePercent := 0
    avgYARNMemoryAvailablePercent := 0
    avgRuntimeHours := 0
    avgRemainingCapacityGB := 0
    clusterCount := 0 }

/-- One daily health score, mirroring interface `HealthScorePoint`. -/
structure HealthScorePoint where
  date : String
  score : ℚ
deriving DecidableEq, Repr, Inhabited

/-- Weekly health summary, mirroring interface `HealthSummary`. -/
structure HealthSummary where
  daily : List HealthScorePoint
  weeklyAverage : ℚ
deriving DecidableEq, Repr, Inhabited

/-- One forecast point, mirroring interface `MemoryForecastPoint`. -/
structure MemoryForecastPoint where
  date : String
  avgMemoryUsagePercent : ℚ
deriving DecidableEq, Repr, Inhabited

/-- Lexicographic strict comparison of character lists by code point, the
order `localeCompare` induces on ISO day keys. -/
def charListLtB : List Char → List Char → Bool
  | [], [] => false
  | [], _ :: _ => true
  | _ :: _, [] => false
  | a :: as, b :: bs =>
      if a.val < b.val then true
      else if b.val < a.val then false
      else charListLtB as bs

/-- Strict code-point order on strings. -/
def strLtB (s t : String) : Bool := charListLtB s.data t.data

/-- Non-strict code-point order on strings (`s.localeCompare(t) <= 0` for the
day-key alphabet). -/
def strLeB (s t : String) : Bool := !strLtB t s

/-- Sorts daily buckets descending by day key. This is the semantics of the
source's stable `sort((a, b) => b.date.localeCompare(a.date))` on ISO day
keys; `List.insertionSort` is stable, matching the JavaScript sort. -/
def sortByDateDesc (l : List DailyMetrics) : List DailyMetrics :=
  l.insertionSort (fun a b => strLeB b.date a.date = true)

/-- Sorts daily buckets ascending by day key, the semantics of
`sort((a, b) => a.date.localeCompare(b.date))`. -/
def sortByDateAsc (l : List DailyMetrics) : List DailyMetrics :=
  l.insertionSort (fun a b => strLeB a.date b.date = true)

/-- Builds the set of distinct cluster names across a window of daily buckets,
mirroring the source's `new Set()` filled by nested `forEach`/`add` loops. -/
def clustersUnion (days : List DailyMetrics) : Finset String :=
  days.foldl (fun acc day => day.clusters.foldl (fun a c => insert c a) acc) ∅

/-- The most recent 7 daily buckets (descending day order), the trailing
window used by `calculateWeeklyKPIs`. -/
def weeklyWindow (dailyMetrics : List DailyMetrics) : List DailyMetrics :=
  (sortByDateDesc dailyMetrics).take 7

/-- Daily buckets 8 to 14 from the most recent (the `slice(7, 14)` of the
descending sort), the window used by `calculatePreviousWeeklyKPIs`. -/
def previousWindow (dailyMetrics : List DailyMetrics) : List DailyMetrics :=
  ((sortByDateDesc dailyMetrics).drop 7).take 7

/-- Embeds `calculateWeeklyKPIs` (data-processing.ts lines 284-309). The
source sorts its argument IN PLACE (`dailyMetrics.sort(...)`, with no copy),
so the embedding returns both the computed KPIs and the post-call contents of
the caller's array: unchanged on the empty early return, descending-sorted
otherwise. -/
def calculateWeeklyKPIs (dailyMetrics : List DailyMetrics) :
    WeeklyKPIs × List DailyMetrics :=
  if dailyMetrics.isEmpty then (zeroWeeklyKPIs, dailyMetrics)
  else
    let sortedMetrics := sortByDateDesc dailyMetrics
    let weeklyData := sortedMetrics.take 7
    let allClusters := clustersUnion weeklyData
    ({ avgMemoryUsagePercent :=
         calculateAverage (weeklyData.map (·.avgMemoryUsagePercent))
       avgYARNMemoryAvailablePercent :=
         calculateAverage (weeklyData.map (·.avgYARNMemoryAvailablePercent))
       avgRuntimeHours := calculateAverage (weeklyData.map (·.avgRuntimeHours))
       avgRemainingCapacityGB :=
         calculateAverage (weeklyData.map (·.avgRemainingCapacityGB))
       clusterCount := (allClusters.card : ℚ) },
     sortedMetrics)

/-- Embeds `calculatePreviousWeeklyKPIs` (data-processing.ts lines 316-349).
This one copies before sorting (`[...dailyMetrics].sort(...)`), so it is a
pure function of its input. -/
def calculatePreviousWeeklyKPIs (dailyMetrics : List DailyMetrics) : WeeklyKPIs :=
  if dailyMetrics.isEmpty then zeroWeeklyKPIs
  else
    let sortedDesc := sortByDateDesc dailyMetrics
    let previousWeek := (sortedDesc.drop 7).take 7
    if previousWeek.isEmpty then zeroWeeklyKPIs
    else
      { avgMemoryUsagePercent :=
          calculateAverage (previousWeek.map (·.avgMemoryUsagePercent))
        avgYARNMemoryAvailablePercent :=
          calculateAverage (previousWeek.map (·.avgYARNMemoryAvailablePercent))
        avgRuntimeHours := calculateAverage (previousWeek.map (·.avgRuntimeHours))
        avgRemainingCapacityGB :=
          calculateAverage (previousWeek.map (·.avgRemainingCapacityGB))
        clusterCount := ((clustersUnion previousWeek).card : ℚ) }

/-- The per-metric delta rule of `calculateKPIDeltas`: percentage change
against `|previous|`, with the zero-previous sentinel (0 if current is also
zero, else 100). -/
def pct (c p : ℚ) : ℚ :=
  if p = 0 then (if c = 0 then 0 else 100)
  else (c - p) / |p| * 100

/-- Embeds `calculateKPIDeltas` (data-processing.ts lines 357-370): the same
`pct` rule applied to each of the five KPI fields. -/
def calculateKPIDeltas (current previous : WeeklyKPIs) : WeeklyKPIs :=
  { avgMemoryUsagePercent :=
      pct current.avgMemoryUsagePercent previous.avgMemoryUsagePercent
    avgYARNMemoryAvailablePercent :=
      pct current.avgYARNMemoryAvailablePercent previous.avgYARNMemoryAvailablePercent
    avgRuntimeHours := pct current.avgRuntimeHours previous.avgRuntimeHours
    avgRemainingCapacityGB :=
      pct current.avgRemainingCapacityGB previous.avgRemainingCapacityGB
    clusterCount := pct current.clusterCount previous.clusterCount }

/-- The per-day health score of `computeHealthSummary` (data-processing.ts
lines 377-395), as a function of the four inputs it reads from a bucket:
100 minus the threshold penalties, clamped to [0,100]. -/
def healthScoreRaw (usage yarn capacity unhealthy : ℚ) : ℚ :=
  let memoryPenalty := max 0 (usage - 80) * 1.2
  let yarnPenalty := max 0 (30 - yarn) * 1.5
  let capacityPenalty := max 0 (200 - capacity) * 0.1
  let unhealthyNodesPenalty := unhealthy * 2.0
  clamp (100 - (memoryPenalty + yarnPenalty + capacityPenalty + unhealthyNodesPenalty)) 0 100

/-- Embeds `computeHealthSummary`: one clamped score per daily bucket, plus
the unweighted average of the latest 7 scores (0 for an empty input). The
source copies before sorting here, so the input is not mutated. -/
def computeHealthSummary (dailyMetrics : List DailyMetrics) : HealthSummary :=
  let daily : List HealthScorePoint := dailyMetrics.map fun d =>
    { date := d.date
      score := healthScoreRaw d.avgMemoryUsagePercent d.avgYARNMemoryAvailablePercent
                 d.avgRemainingCapacityGB d.avgUnhealthyNodes }
  let sortedDesc := daily.insertionSort (fun a b => strLeB b.date a.date = true)
  let latest7 := sortedDesc.take 7
  let weeklyAverage :=
    if 0 < latest7.length then (latest7.map (·.score)).sum / (latest7.length : ℚ) else 0
  { daily := daily, weeklyAverage := weeklyAverage }

/-- Civil-calendar day number for a `(year, month, day)` triple (days since
1970-01-01), the standard era-based algorithm. `Int.fdiv` is floor division;
after the era normalisation every dividend is non-negative, where floor
division agrees with the truncating division of the reference algorithm. -/
def daysFromCivil (y m d : Int) : Int :=
  let yAdj := if m ≤ 2 then y - 1 else y
  let era := Int.fdiv yAdj 400
  let yoe := yAdj - era * 400
  let mp := Int.fdiv ((m + 9) % 12 * 153 + 2) 5
  let doy := mp + d - 1
  let doe := yoe * 365 + Int.fdiv yoe 4 - Int.fdiv yoe 100 + doy
  era * 146097 + doe - 719468

/-- Inverse of `daysFromCivil`: the `(year, month, day)` triple of a civil
day number. -/
def civilFromDays (z : Int) : Int × Int × Int :=
  let z' := z + 719468
  let era := Int.fdiv z' 146097
  let doe := z' - era * 146097
  let yoe := Int.fdiv (doe - Int.fdiv doe 1460 + Int.fdiv doe 36524 - Int.fdiv doe 146096) 365
  let y := yoe + era * 400
  let doy := doe - (365 * yoe + Int.fdiv yoe 4 - Int.fdiv yoe 100)
  let mp := Int.fdiv (5 * doy + 2) 153
  let d := doy - Int.fdiv (153 * mp + 2) 5 + 1
  let m := if mp < 10 then mp + 3 else mp - 9
  (if m ≤ 2 then y + 1 else y, m, d)

/-- Parses a `yyyy-MM-dd` day key into its numeric components; malformed
components fall back to 0 (the source would produce an invalid date there,
which only affects the cosmetic date label of forecast points). -/
def parseYMD (s : String) : Int × Int × Int :=
  match (s.splitOn "-").map (fun t => ((t.toNat?).getD 0 : Int)) with
  | [y, m, d] => (y, m, d)
  | _ => (0, 0, 0)

/-- Left-pads a natural number to two digits. -/
def pad2 (k : Nat) : String :=
  if k < 10 then "0" ++ toString k else toString k

/-- Left-pads a natural number to four digits. -/
def pad4 (k : Nat) : String :=
  if k < 10 then "000" ++ toString k
  else if k < 100 then "00" ++ toString k
  else if k < 1000 then "0" ++ toString k
  else toString k

/-- Formats a civil `(year, month, day)` triple as `yyyy-MM-dd`. -/
def formatYMD : Int × Int × Int → String
  | (y, m, d) => pad4 y.toNat ++ "-" ++ pad2 m.toNat ++ "-" ++ pad2 d.toNat

/-- Shifts a `yyyy-MM-dd` day key by a number of days, the semantics of the
source's `format(addDays(parseISO(date), i), 'yyyy-MM-dd')`. -/
def addDaysISO (s : String) (i : Nat) : String :=
  let ymd := parseYMD s
  formatYMD (civilFromDays (daysFromCivil ymd.1 ymd.2.1 ymd.2.2 + i))

/-- The least-squares coefficients `(slope, intercept)` computed by
`forecastMemoryUsage` over the chronological usage series, x-values 1..n,
with the source's `denom || 1` zero-denominator fallback. -/
def regressionCoeffs (ys : List ℚ) : ℚ × ℚ :=
  let n : ℚ := (ys.length : ℚ)
  let xs : List ℚ := (List.range ys.length).map (fun i => ((i : ℚ) + 1))
  let sumX := xs.sum
  let sumY := ys.sum
  let sumXY := ((xs.zip ys).map (fun p => p.1 * p.2)).sum
  let sumXX := (xs.map (fun x => x * x)).sum
  let denom := if n * sumXX - sumX * sumX = 0 then 1 else n * sumXX - sumX * sumX
  let slope := (n * sumXY - sumX * sumY) / denom
  let intercept := (sumY - slope * sumX) / n
  (slope, intercept)

/-- Embeds `forecastMemoryUsage` (data-processing.ts lines 436-464): linear
extrapolation of usage over day index, one point per future day, each value
clamped into [0,100] by `Math.max(0, Math.min(100, y))`. -/
def forecastMemoryUsage (dailyMetrics : List DailyMetrics) (horizonDays : Nat := 7) :
    List MemoryForecastPoint :=
  if dailyMetrics.isEmpty then []
  else
    let data := sortByDateAsc dailyMetrics
    let n := data.length
    let coeffs := regressionCoeffs (data.map (·.avgMemoryUsagePercent))
    let lastDate := ((data.getLast?).map (·.date)).getD ""
    (List.range horizonDays).map fun i =>
      { date := addDaysISO lastDate (i + 1)
        avgMemoryUsagePercent :=
          max 0 (min 100 (coeffs.2 + coeffs.1 * ((n : ℚ) + ((i : ℚ) + 1)))) }

/-- Models JavaScript's `Number.prototype.toFixed(2)` on an exact rational:
sign, then the magnitude rounded to the nearest hundredth (ties away from
zero, i.e. the larger candidate, as the ECMAScript algorithm picks), printed
with exactly two fractional digits. -/
def toFixed2 (q : ℚ) : String :=
  let sgn := if q < 0 then "-" else ""
  let n := (⌊|q| * 100 + 1 / 2⌋).toNat
  sgn ++ toString (n / 100) ++ "." ++ pad2 (n % 100)

/-- The fixed header row of `exportToCSV` (the source joins the eight column
names with a bare comma). -/
def csvHeader : String :=
  String.intercalate ","
    ["Date", "Avg Memory Usage %", "Avg YARN Memory Available %",
     "Avg Runtime Hours", "Avg Remaining Capacity GB", "Avg Unhealthy Nodes",
     "Cluster Count", "Clusters"]

/-- One data row of `exportToCSV`: date, the five averages via `toFixed(2)`,
the raw cluster count, and the semicolon-joined cluster-name list. -/
def csvRow (metric : DailyMetrics) : String :=
  String.intercalate ","
    [metric.date,
     toFixed2 metric.avgMemoryUsagePercent,
     toFixed2 metric.avgYARNMemoryAvailablePercent,
     toFixed2 metric.avgRuntimeHours,
     toFixed2 metric.avgRemainingCapacityGB,
     toFixed2 metric.avgUnhealthyNodes,
     toString metric.clusterCount,
     String.intercalate ";" metric.clusters]

/-- Embeds `exportToCSV` (data-processing.ts lines 689-718): the empty string
for an empty bucket list, otherwise header plus one row per bucket joined by
newlines. -/
def exportToCSV (dailyMetrics : List DailyMetrics) : String :=
  if dailyMetrics.isEmpty then ""
  else String.intercalate "\n" (csvHeader :: dailyMetrics.map csvRow)

/-- Canonical cluster record, mirroring interface `EMRClusterRecord`. The two
timestamp strings are modelled by their parse results (`none` = empty or
unparseable); the unused `earliest_time`/`latest_time` strings are kept for
shape fidelity. -/
structure EMRClusterRecord where
  earliest_time : String
  latest_time : String
  ClusterName : String
  ClusterId : String
  CreationDateTime : Option Int
  EndDateTime : Option Int
  MinCapacityRemainingGB : ℚ
  MinYARNMemoryAvailablePercentage : ℚ
  MaxMemoryAllocatedMB : ℚ
  MaxMemoryTotalMB : ℚ
  MaxMRUnhealthyNodes : ℚ
  State : String
deriving DecidableEq, Repr, Inhabited

/-- Filter options, mirroring interface `FilterOptions` (all fields optional). -/
structure FilterOptions where
  clusterName : Option String := none
  startDate : Option Int := none
  endDate : Option Int := none
deriving DecidableEq, Repr, Inhabited

/-- The cluster-name rejection test of `filterEMRData`: the filter value must
be truthy (present and non-empty) and differ from the record's name. -/
def clusterNameReject (filters : FilterOptions) (record : EMRClusterRecord) : Bool :=
  match filters.clusterName with
  | some cn => decide (cn ≠ "") && decide (record.ClusterName ≠ cn)
  | none => false

/-- Start of the UTC day containing a millisecond timestamp (`startOfDay`).
The embedding fixes UTC as the single reference time zone. -/
def startOfDayMs (t : Int) : Int := 86400000 * Int.fdiv t 86400000

/-- End of the UTC day containing a millisecond timestamp (`endOfDay`,
i.e. 23:59:59.999). -/
def endOfDayMs (t : Int) : Int := startOfDayMs t + 86399999

/-- Interval membership for an optional timestamp (`isWithinInterval`): an
absent or unparseable date is never within the interval. -/
def isWithinMs (t : Option Int) (lo hi : Int) : Bool :=
  match t with
  | some x => decide (lo ≤ x ∧ x ≤ hi)
  | none => false

/-- Embeds `filterEMRData` (data-processing.ts lines 205-225). A record is
dropped by a truthy, differing cluster-name filter; the date criterion is
evaluated only inside the `startDate && endDate` branch (a record matches if
its creation or end time falls in `[startOfDay(start), endOfDay(end)]`), and
when only one bound is supplied the filter falls through to `return true`. -/
def filterEMRData (data : List EMRClusterRecord) (filters : FilterOptions) :
    List EMRClusterRecord :=
  data.filter fun record =>
    if clusterNameReject filters record then false
    else if filters.startDate.isSome || filters.endDate.isSome then
      match filters.startDate, filters.endDate with
      | some s, some e =>
          isWithinMs record.CreationDateTime (startOfDayMs s) (endOfDayMs e) ||
          isWithinMs record.EndDateTime (startOfDayMs s) (endOfDayMs e)
      | _, _ => true
    else true

/-- Raw JSON entry, mirroring `RawEmrData`. The three identity fields are
`Option String` so that a missing or null field (`none`) and an empty string
(`some ""`) are both representable; the JavaScript validation treats all of
them as falsy. Timestamps are parse results as elsewhere. -/
structure RawEmrData where
  ClusterName : Option String
  ClusterId : Option String
  State : Option String
  CreationDateTime : Option Int
  EndDateTime : Option Int
  MinCapacityRemainingGB : ℚ
  MinYARNMemoryAvailablePercentage : ℚ
  MaxMemoryAllocatedMB : ℚ
  MaxMemoryTotalMB : ℚ
  MaxMRUnhealthyNodes : ℚ
deriving DecidableEq, Repr, Inhabited

/-- Converted cluster record, mirroring interface `EmrCluster` as produced by
`convertRawDataToCluster` (EmrDataContext.tsx). `id` combines the ingestion
index with the ingestion timestamp (`Date.now()`), passed in as `now`. -/
structure EmrCluster where
  id : String
  clusterName : Option String
  clusterId : Option String
  creationDateTime : Option Int
  endDateTime : Option Int
  minCapacityRemainingGB : ℚ
  minYARNMemoryAvailablePercentage : ℚ
  maxMemoryAllocatedMB : ℚ
  maxMemoryTotalMB : ℚ
  maxMRUnhealthyNodes : ℚ
  state : Option String
deriving DecidableEq, Repr, Inhabited

/-- Truthiness of an optional string: present and non-empty. -/
def truthyString (s : Option String) : Bool :=
  match s with
  | some t => decide (t ≠ "")
  | none => false

/-- The required-identity-field validation of `processJsonFile`:
`!(!ClusterName || !ClusterId || !State)`. -/
def requiredFieldsPresent (r : RawEmrData) : Bool :=
  truthyString r.ClusterName && truthyString r.ClusterId && truthyString r.State

/-- Embeds `convertRawDataToCluster` (EmrDataContext.tsx lines 138-154). -/
def convertRawDataToCluster (rawData : RawEmrData) (index : Nat) (now : Int) :
    EmrCluster :=
  { id := "cluster-" ++ toString index ++ "-" ++ toString now
    clusterName := rawData.ClusterName
    clusterId := rawData.ClusterId
    creationDateTime := rawData.CreationDateTime
    endDateTime := rawData.EndDateTime
    minCapacityRemainingGB := rawData.MinCapacityRemainingGB
    minYARNMemoryAvailablePercentage := rawData.MinYARNMemoryAvailablePercentage
    maxMemoryAllocatedMB := rawData.MaxMemoryAllocatedMB
    maxMemoryTotalMB := rawData.MaxMemoryTotalMB
    maxMRUnhealthyNodes := rawData.MaxMRUnhealthyNodes
    state := rawData.State }

/-- The error message thrown for an invalid entry at a given index. -/
def missingFieldsMsg (i : Nat) : String :=
  "Missing required fields in cluster data at index " ++ toString i

/-- The `rawClusters.map` body of `processJsonFile`: converts entries in
order, aborting with the index-bearing error at the first entry whose
required identity fields are not all present, exactly as the thrown
exception aborts the JavaScript `map`. -/
def validateAndConvert (now : Int) : List RawEmrData → Nat → Except String (List EmrCluster)
  | [], _ => .ok []
  | r :: rest, i =>
      if requiredFieldsPresent r then
        match validateAndConvert now rest (i + 1) with
        | .ok tail => .ok (convertRawDataToCluster r i now :: tail)
        | .error e => .error e
      else .error (missingFieldsMsg i)

/-- Embeds the state transition of `processJsonFile` (EmrDataContext.tsx
lines 159-204) after JSON decoding: given the previously loaded cluster list
and the decoded entry array, returns the new cluster list and the error
message (if any). An empty array or a validation failure leaves the cluster
list exactly as it was; on success the new records are appended. -/
def processJsonFile (prev : List EmrCluster) (rawClusters : List RawEmrData)
    (now : Int) : List EmrCluster × Option String :=
  if rawClusters.isEmpty then (prev, some "No cluster data found in file")
  else
    match validateAndConvert now rawClusters 0 with
    | .error msg => (prev, some msg)
    | .ok newClusters => (prev ++ newClusters, none)

/-! Concrete fixtures used by counterexamples and witnesses. -/

/-- A daily bucket for 2024-01-01 with cluster list `["A"]`. -/
def bucketDay1 : DailyMetrics :=
  { date := "2024-01-01", avgMemoryUsagePercent := 10,
    avgYARNMemoryAvailablePercent := 50, avgRuntimeHours := 1,
    avgRemainingCapacityGB := 100, clusterCount := 1,
    clusters := ["A"], avgUnhealthyNodes := 0 }

/-- A daily bucket for 2024-01-02 with cluster list `["A"]` (the same cluster
name recurring on a second day). -/
def bucketDay2 : DailyMetrics :=
  { date := "2024-01-02", avgMemoryUsagePercent := 20,
    avgYARNMemoryAvailablePercent := 60, avgRuntimeHours := 2,
    avgRemainingCapacityGB := 120, clusterCount := 1,
    clusters := ["A"], avgUnhealthyNodes := 0 }

/-- A raw upload entry with all required identity fields present. -/
def rawGoodA : RawEmrData :=
  { ClusterName := some "A", ClusterId := some "j-1", State := some "RUNNING",
    CreationDateTime := some 1700000000000, EndDateTime := some 1700003600000,
    MinCapacityRemainingGB := 100, MinYARNMemoryAvailablePercentage := 50,
    MaxMemoryAllocatedMB := 800, MaxMemoryTotalMB := 1000,
    MaxMRUnhealthyNodes := 0 }

/-- A second valid raw upload entry. -/
def rawGoodB : RawEmrData :=
  { ClusterName := some "B", ClusterId := some "j-2", State := some "WAITING",
    CreationDateTime := some 1700000000000, EndDateTime := none,
    MinCapacityRemainingGB := 200, MinYARNMemoryAvailablePercentage := 60,
    MaxMemoryAllocatedMB := 500, MaxMemoryTotalMB := 1000,
    MaxMRUnhealthyNodes := 1 }

/-- A raw upload entry whose `ClusterId` is empty (falsy), hence invalid. -/
def rawBadId : RawEmrData :=
  { ClusterName := some "C", ClusterId := some "", State := some "RUNNING",
    CreationDateTime := some 1700000000000, EndDateTime := none,
    MinCapacityRemainingGB := 10, MinYARNMemoryAvailablePercentage := 70,
    MaxMemoryAllocatedMB := 100, MaxMemoryTotalMB := 1000,
    MaxMRUnhealthyNodes := 0 }

/-- A previously loaded cluster record, present before the failing upload. -/
def prevCluster : EmrCluster :=
  convertRawDataToCluster rawGoodA 0 1690000000000

/-- A record named "A" used by the filter witness. -/
def recA : EMRClusterRecord :=
  { earliest_time := "", latest_time := "", ClusterName := "A", ClusterId := "j-1",
    CreationDateTime := some 1700000000000, EndDateTime := some 1700003600000,
    MinCapacityRemainingGB := 100, MinYARNMemoryAvailablePercentage := 50,
    MaxMemoryAllocatedMB := 800, MaxMemoryTotalMB := 1000,
    MaxMRUnhealthyNodes := 0, State := "RUNNING" }

/-- A record named "B" used by the filter witness. -/
def recB : EMRClusterRecord :=
  { recA with ClusterName := "B", ClusterId := "j-2" }

/-- A filter supplying only a start date (no end date) plus a name filter. -/
def filterOnlyStart : FilterOptions :=
  { clusterName := some "A", startDate := some 1700000000000, endDate := none }

/-! Helper lemmas shared by the claim theorems. -/

/-- Monotonicity of `clamp` in its clamped argument. -/
theorem clamp_mono {a b : ℚ} (h : a ≤ b) (mn mx : ℚ) :
    clamp a mn mx ≤ clamp b mn mx :=
  max_le_max le_rfl (min_le_min le_rfl h)

/-- Membership after folding `insert` over a name list. -/
theorem mem_foldl_insert (names : List String) (acc : Finset String) (c : String) :
    c ∈ names.foldl (fun a x => insert x a) acc ↔ c ∈ acc ∨ c ∈ names := by
  induction names generalizing acc with
  | nil => simp
  | cons hd tl ih =>
      simp only [List.foldl_cons, ih, Finset.mem_insert, List.mem_cons]
      tauto

/-- Membership in the cluster-name set built from an arbitrary accumulator. -/
theorem mem_clustersUnion_from (days : List DailyMetrics) (acc : Finset String)
    (c : String) :
    (c ∈ days.foldl (fun acc day => day.clusters.foldl (fun a x => insert x a) acc) acc) ↔
      c ∈ acc ∨ ∃ day ∈ days, c ∈ day.clusters := by
  induction days generalizing acc with
  | nil => simp
  | cons hd tl ih =>
      simp only [List.foldl_cons, ih, mem_foldl_insert, List.mem_cons]
      constructor
      · rintro (⟨h | h⟩ | ⟨day, hday, hc⟩)
        · exact Or.inl h
        · exact Or.inr ⟨hd, Or.inl rfl, h⟩
        · exact Or.inr ⟨day, Or.inr hday, hc⟩
      · rintro (h | ⟨day, (rfl | hday), hc⟩)
        · exact Or.inl (Or.inl h)
        · exact Or.inl (Or.inr hc)
        · exact Or.inr ⟨day, hday, hc⟩

/-- Membership in `clustersUnion`: exactly the names observed on some day. -/
theorem mem_clustersUnion (days : List DailyMetrics) (c : String) :
    c ∈ clustersUnion days ↔ ∃ day ∈ days, c ∈ day.clusters := by
  rw [clustersUnion, mem_clustersUnion_from]
  simp

/-- Peeling one day off `clustersUnion`. -/
theorem clustersUnion_cons (day : DailyMetrics) (rest : List DailyMetrics) :
    clustersUnion (day :: rest) = day.clusters.toFinset ∪ clustersUnion rest := by
  ext c
  simp only [mem_clustersUnion, List.mem_cons, Finset.mem_union, List.mem_toFinset]
  constructor
  · rintro ⟨d, (rfl | hd), hc⟩
    · exact Or.inl hc
    · exact Or.inr ⟨d, hd, hc⟩
  · rintro (hc | ⟨d, hd, hc⟩)
    · exact ⟨day, Or.inl rfl, hc⟩
    · exact ⟨d, Or.inr hd, hc⟩

/-- The union's cardinality is at most the sum of the per-day distinct counts. -/
theorem clustersUnion_card_le (days : List DailyMetrics) :
    (clustersUnion days).card ≤
      (days.map (fun day => day.clusters.toFinset.card)).sum := by
  induction days with
  | nil => simp [clustersUnion]
  | cons hd tl ih =>
      rw [clustersUnion_cons]
      simp only [List.map_cons, List.sum_cons]
      exact le_trans (Finset.card_union_le _ _) (Nat.add_le_add_left ih _)

/-! Claim theorems. -/

/-- C1: the metric function `calculateMemoryUsagePercent` is always clamped
to [0,100], returns 0 for a zero total or negative inputs and 100 for
allocated > total; but the per-record CSV export of the dashboard page
computes its own usage percentage without the 100 cap, emitting 120 for
allocated=1200, total=1000, so the claimed dashboard-wide clamp fails at
that emission point. -/
theorem memory_usage_clamped_but_export_exceeds_100 :
    (∀ a t : ℚ, 0 ≤ calculateMemoryUsagePercent a t ∧
        calculateMemoryUsagePercent a t ≤ 100) ∧
    calculateMemoryUsagePercent 5 0 = 0 ∧
    calculateMemoryUsagePercent (-3) 1000 = 0 ∧
    calculateMemoryUsagePercent 1200 1000 = 100 ∧
    dashboardExportMemoryUsagePercent (some 1200) (some 1000) = 120 ∧
    ¬ dashboardExportMemoryUsagePercent (some 1200) (some 1000) ≤ 100 := by
  refine ⟨fun a t => ?_, by norm_num [calculateMemoryUsagePercent],
    by norm_num [calculateMemoryUsagePercent],
    by norm_num [calculateMemoryUsagePercent],
    by norm_num [dashboardExportMemoryUsagePercent],
    by norm_num [dashboardExportMemoryUsagePercent]⟩
  unfold calculateMemoryUsagePercent
  split_ifs with h1 h2 h3
  · exact ⟨le_rfl, by norm_num⟩
  · exact ⟨le_rfl, by norm_num⟩
  · exact ⟨by norm_num, le_rfl⟩
  · push_neg at h2 h3
    have ht : 0 < t := lt_of_le_of_ne h2.2 (Ne.symm h1)
    constructor
    · exact mul_nonneg (div_nonneg h2.1 ht.le) (by norm_num)
    · calc a / t * 100 ≤ 1 * 100 :=
            mul_le_mul_of_nonneg_right ((div_le_one ht).mpr h3) (by norm_num)
        _ = 100 := by norm_num

/-- C2: the metric function `calculateRuntimeHours` is non-negative and
returns exactly 0 when the end precedes the creation or either timestamp is
absent/unparseable; but the per-record CSV export of the dashboard page uses
the absolute time difference, emitting 24 hours for an end timestamp one day
before the creation, where the claim requires 0. -/
theorem runtime_zero_rule_but_export_uses_abs :
    (∀ c e : Option Int, 0 ≤ calculateRuntimeHours c e) ∧
    (∀ s e : Int, e < s → calculateRuntimeHours (some s) (some e) = 0) ∧
    (∀ x : Option Int, calculateRuntimeHours none x = 0 ∧
        calculateRuntimeHours x none = 0) ∧
    calculateRuntimeHours (some 86400000) (some 0) = 0 ∧
    dashboardExportRuntimeHours 86400000 (some 0) = 24 := by
  refine ⟨fun c e => ?_, fun s e h => ?_, fun x => ⟨?_, ?_⟩, ?_, ?_⟩
  · cases c with
    | none => simp [calculateRuntimeHours]
    | some s =>
        cases e with
        | none => simp [calculateRuntimeHours]
        | some t =>
            simp only [calculateRuntimeHours]
            split_ifs with h
            · exact le_rfl
            · exact le_max_left 0 _
  · simp [calculateRuntimeHours, h]
  · rfl
  · cases x <;> rfl
  · norm_num [calculateRuntimeHours]
  · simp only [dashboardExportRuntimeHours]
    push_cast
    rw [zero_sub, abs_neg, abs_of_nonneg (by norm_num : (0 : ℚ) ≤ 86400000)]
    norm_num

/-- C2 witness: the runtime function at a concrete inverted time range. -/
theorem runtime_zero_rule_but_export_uses_abs_witness :
    calculateRuntimeHours (some 7200000) (some 3600000) = 0 :=
  runtime_zero_rule_but_export_uses_abs.2.1 7200000 3600000 (by norm_num)

/-- C5: every one of the five KPI delta fields is computed by the same `pct`
rule; `pct` is the relative change against `|previous|` when the previous
value is non-zero, 0 when both values are zero, and the full-increase
sentinel 100 when only the previous value is zero; in particular
`pct 0 0 = 0` and `pct 5 0 = 100`. -/
theorem kpi_delta_rule (cv pv : ℚ) (hp : pv ≠ 0) (hc : cv ≠ 0) :
    (∀ current previous : WeeklyKPIs,
        (calculateKPIDeltas current previous).avgMemoryUsagePercent =
            pct current.avgMemoryUsagePercent previous.avgMemoryUsagePercent ∧
        (calculateKPIDeltas current previous).avgYARNMemoryAvailablePercent =
            pct current.avgYARNMemoryAvailablePercent
              previous.avgYARNMemoryAvailablePercent ∧
        (calculateKPIDeltas current previous).avgRuntimeHours =
            pct current.avgRuntimeHours previous.avgRuntimeHours ∧
        (calculateKPIDeltas current previous).avgRemainingCapacityGB =
            pct current.avgRemainingCapacityGB previous.avgRemainingCapacityGB ∧
        (calculateKPIDeltas current previous).clusterCount =
            pct current.clusterCount previous.clusterCount) ∧
    pct cv pv = (cv - pv) / |pv| * 100 ∧
    pct 0 0 = 0 ∧
    pct cv 0 = 100 ∧
    pct 5 0 = 100 := by
  refine ⟨fun current previous => ⟨rfl, rfl, rfl, rfl, rfl⟩, ?_, ?_, ?_, ?_⟩
  · rw [pct, if_neg hp]
  · norm_num [pct]
  · rw [pct, if_pos rfl, if_neg hc]
  · norm_num [pct]

/-- C5 witness: the delta rule instantiated at current 5, previous 3. -/
theorem kpi_delta_rule_witness :
    pct 5 3 = (5 - 3) / |(3 : ℚ)| * 100 ∧ pct 0 0 = 0 ∧ pct 5 0 = 100 := by
  have h := kpi_delta_rule 5 3 (by norm_num) (by norm_num)
  exact ⟨h.2.1, h.2.2.1, h.2.2.2.2⟩

/-- C3: `calculateWeeklyKPIs` does NOT leave its daily-bucket argument
unchanged. The source sorts the caller's array in place (no copy, unlike the
sibling functions), so an ascending two-bucket array comes back descending:
the buckets for 2024-01-01 and 2024-01-02, passed in ascending day order,
are reordered to [2024-01-02, 2024-01-01] by the call. -/
theorem weeklyKPIs_mutates_caller_buckets :
    sortByDateAsc [bucketDay1, bucketDay2] = [bucketDay1, bucketDay2] ∧
    (calculateWeeklyKPIs [bucketDay1, bucketDay2]).2 = [bucketDay2, bucketDay1] ∧
    (calculateWeeklyKPIs [bucketDay1, bucketDay2]).2 ≠ [bucketDay1, bucketDay2] := by
  refine ⟨rfl, rfl, ?_⟩
  have h : (calculateWeeklyKPIs [bucketDay1, bucketDay2]).2 =
      [bucketDay2, bucketDay1] := rfl
  rw [h]
  simp [bucketDay1, bucketDay2]

/-- C7: the daily health score is 100 minus the fixed threshold penalties
(thresholds 80, 30, 200; weights 1.2, 1.5, 0.1, 2.0) clamped to [0,100]; it
is exactly 100 at usage 0, yarn 100, capacity at least 200 and no unhealthy
nodes; and it is non-increasing in the usage percentage above 80 and in the
unhealthy-node count. -/
theorem health_score_formula (u y cap n c2 u1 u2 n1 n2 : ℚ)
    (h200 : 200 ≤ c2) (h80 : 80 ≤ u1) (hu : u1 ≤ u2) (hn : n1 ≤ n2) :
    (∀ dm : List DailyMetrics, (computeHealthSummary dm).daily = dm.map fun d =>
        { date := d.date
          score := healthScoreRaw d.avgMemoryUsagePercent
                     d.avgYARNMemoryAvailablePercent d.avgRemainingCapacityGB
                     d.avgUnhealthyNodes }) ∧
    healthScoreRaw u y cap n =
        clamp (100 - (max 0 (u - 80) * 1.2 + max 0 (30 - y) * 1.5 +
          max 0 (200 - cap) * 0.1 + n * 2.0)) 0 100 ∧
    (0 ≤ healthScoreRaw u y cap n ∧ healthScoreRaw u y cap n ≤ 100) ∧
    healthScoreRaw 0 100 c2 0 = 100 ∧
    healthScoreRaw u2 y cap n ≤ healthScoreRaw u1 y cap n ∧
    healthScoreRaw u y cap n2 ≤ healthScoreRaw u y cap n1 := by
  refine ⟨fun dm => rfl, rfl, ⟨le_max_left 0 _, ?_⟩, ?_, ?_, ?_⟩
  · exact max_le (by norm_num) (min_le_left 100 _)
  · have hm : max (0 : ℚ) (0 - 80) = 0 := by norm_num
    have hy : max (0 : ℚ) (30 - 100) = 0 := by norm_num
    have hc : max (0 : ℚ) (200 - c2) = 0 := max_eq_left (by linarith)
    simp only [healthScoreRaw, hm, hy, hc]
    norm_num [clamp]
  · have hmono : max 0 (u1 - 80) * 1.2 ≤ max 0 (u2 - 80) * 1.2 :=
      mul_le_mul_of_nonneg_right (max_le_max le_rfl (by linarith)) (by norm_num)
    exact clamp_mono (by linarith) 0 100
  · have hmono : n1 * 2.0 ≤ n2 * 2.0 :=
      mul_le_mul_of_nonneg_right hn (by norm_num)
    exact clamp_mono (by linarith) 0 100

/-- C7 witness: the health-score properties at concrete inputs. -/
theorem health_score_formula_witness :
    healthScoreRaw 0 100 250 0 = 100 ∧
    healthScoreRaw 90 40 150 1 ≤ healthScoreRaw 85 40 150 1 ∧
    healthScoreRaw 50 40 150 3 ≤ healthScoreRaw 50 40 150 1 := by
  have h := health_score_formula 50 40 150 1 250 85 90 1 3
    (by norm_num) (by norm_num) (by norm_num) (by norm_num)
  exact ⟨h.2.2.2.1, h.2.2.2.2.1, h.2.2.2.2.2⟩

/-- C6: for both the trailing-7-day window and the previous window, the
weekly `clusterCount` is the cardinality of the union of the cluster-name
lists across the window's days (a name belongs to the union exactly when some
day of the window lists it); that cardinality never exceeds the sum of the
per-day distinct counts, and is strictly less when a name recurs across days
(the two fixture buckets both list cluster "A"); empty inputs yield the
all-zero KPI result. -/
theorem weekly_clusterCount_is_union_card :
    (∀ d : List DailyMetrics,
        ((calculateWeeklyKPIs d).1).clusterCount =
            ((clustersUnion (weeklyWindow d)).card : ℚ) ∧
        (calculatePreviousWeeklyKPIs d).clusterCount =
            ((clustersUnion (previousWindow d)).card : ℚ)) ∧
    (∀ (days : List DailyMetrics) (c : String),
        c ∈ clustersUnion days ↔ ∃ day ∈ days, c ∈ day.clusters) ∧
    (∀ days : List DailyMetrics,
        (clustersUnion days).card ≤
          (days.map (fun day => day.clusters.toFinset.card)).sum) ∧
    (clustersUnion (weeklyWindow [bucketDay1, bucketDay2])).card <
        ((weeklyWindow [bucketDay1, bucketDay2]).map
          (fun day => day.clusters.toFinset.card)).sum ∧
    ((calculateWeeklyKPIs []).1 = zeroWeeklyKPIs ∧
      calculatePreviousWeeklyKPIs [] = zeroWeeklyKPIs) := by
  refine ⟨fun d => ⟨?_, ?_⟩, mem_clustersUnion, clustersUnion_card_le,
    by decide, rfl, rfl⟩
  · cases d with
    | nil => rfl
    | cons hd tl =>
        simp only [calculateWeeklyKPIs, weeklyWindow, List.isEmpty_cons,
          Bool.false_eq_true, if_false]
  · cases d with
    | nil => rfl
    | cons hd tl =>
        simp only [calculatePreviousWeeklyKPIs, previousWindow,
          List.isEmpty_cons, Bool.false_eq_true, if_false]
        by_cases h : (((sortByDateDesc (hd :: tl)).drop 7).take 7).isEmpty
        · rw [if_pos h]
          rw [List.isEmpty_iff] at h
          rw [h]
          rfl
        · rw [if_neg h]

/-- If the first invalid entry sits at position `i`, the conversion loop
aborts with the error naming index `k + i` (where `k` is the index of the
first entry of the remaining list). -/
theorem validateAndConvert_error_at_first_invalid (now : Int) :
    ∀ (raw : List RawEmrData) (k i : Nat) (h : i < raw.length),
      requiredFieldsPresent raw[i] = false →
      (raw.take i).all requiredFieldsPresent = true →
      validateAndConvert now raw k = .error (missingFieldsMsg (k + i)) := by
  intro raw
  induction raw with
  | nil => intro k i h _ _; simp at h
  | cons r rest ih =>
      intro k i h hbad hpre
      cases i with
      | zero =>
          simp only [List.getElem_cons_zero] at hbad
          simp [validateAndConvert, hbad]
      | succ j =>
          simp only [List.getElem_cons_succ] at hbad
          simp only [List.take_succ_cons, List.all_cons, Bool.and_eq_true] at hpre
          have hrest := ih (k + 1) j (by simpa using h) hbad hpre.2
          simp only [validateAndConvert, hpre.1, if_true, hrest]
          have : k + 1 + j = k + (j + 1) := by omega
          rw [this]

/-- C4: batch upload is all-or-nothing. Whenever some entry of the uploaded
array fails the required-identity-field check (and all entries before it
pass, so it is the first failure the conversion loop meets), the whole batch
is rejected with the error naming that entry's index, and the previously
loaded cluster list is returned exactly unchanged, with none of the batch
appended. -/
theorem upload_rejects_batch_and_preserves_state (prev : List EmrCluster)
    (raw : List RawEmrData) (now : Int) (i : Nat) (h : i < raw.length)
    (hbad : requiredFieldsPresent raw[i] = false)
    (hpre : (raw.take i).all requiredFieldsPresent = true) :
    processJsonFile prev raw now = (prev, some (missingFieldsMsg i)) := by
  have hne : raw.isEmpty = false := by
    cases raw with
    | nil => simp at h
    | cons a l => rfl
  simp only [processJsonFile, hne, Bool.false_eq_true, if_false]
  rw [validateAndConvert_error_at_first_invalid now raw 0 i h hbad hpre]
  simp

/-- C4 witness: uploading three entries whose index-2 entry has an empty
`ClusterId` rejects the whole batch with the index-2 message and leaves the
previously loaded single-record state untouched. -/
theorem upload_rejects_batch_and_preserves_state_witness :
    processJsonFile [prevCluster] [rawGoodA, rawGoodB, rawBadId] 1700000000000 =
      ([prevCluster], some (missingFieldsMsg 2)) :=
  upload_rejects_batch_and_preserves_state [prevCluster]
    [rawGoodA, rawGoodB, rawBadId] 1700000000000 2
    (by decide) (by decide) (by decide)

/-- On a single data point the regression denominator guard fires
(`1*1 - 1*1 = 0`, replaced by 1), giving slope 0 and intercept equal to the
point's value. -/
theorem regressionCoeffs_single (y : ℚ) : regressionCoeffs [y] = (0, y) := by
  simp [regressionCoeffs, List.range_succ]

/-- C8: the forecaster never divides by zero on a single bucket: the
regression degenerates to slope 0 and intercept equal to the mean (the one
value), and the forecast has exactly `horizonDays` points (7 by default),
each equal to the single bucket's usage clamped into [0,100]. -/
theorem forecast_single_bucket_is_constant :
    (∀ y : ℚ, regressionCoeffs [y] = (0, y)) ∧
    (∀ y : ℚ, calculateAverage [y] = y) ∧
    (∀ (d : DailyMetrics) (hz : Nat),
        (forecastMemoryUsage [d] hz).length = hz ∧
        ∀ p ∈ forecastMemoryUsage [d] hz,
          p.avgMemoryUsagePercent = max 0 (min 100 d.avgMemoryUsagePercent)) ∧
    (∀ d : DailyMetrics, (forecastMemoryUsage [d]).length = 7) := by
  refine ⟨regressionCoeffs_single, fun y => by simp [calculateAverage], fun d hz => ⟨?_, ?_⟩,
    fun d => by simp [forecastMemoryUsage, sortByDateAsc]⟩
  · simp [forecastMemoryUsage, sortByDateAsc]
  · intro p hp
    simp only [forecastMemoryUsage, List.isEmpty_cons, Bool.false_eq_true,
      if_false, sortByDateAsc, List.insertionSort, List.mem_map,
      List.mem_range] at hp
    obtain ⟨i, hi, rfl⟩ := hp
    simp [regressionCoeffs_single]

/-- Two-digit padding facts behind the `toFixed(2)` fractional part. -/
theorem pad2_two_digits : ∀ k, k < 100 →
    (pad2 k).length = 2 ∧ (pad2 k).toList.all Char.isDigit = true := by decide

/-- C9: the per-bucket CSV export of an empty list is the empty string (not a
header-only string); for a non-empty list the output is the fixed
eight-column header followed by one row per bucket, each row carrying the
five averages formatted by `toFixed(2)` (always a dot plus exactly two
digits), the raw cluster count, and the semicolon-joined cluster-name list. -/
theorem csv_export_contract :
    exportToCSV [] = "" ∧
    (∀ (d : DailyMetrics) (ds : List DailyMetrics),
        exportToCSV (d :: ds) =
          String.intercalate "\n" (csvHeader :: (d :: ds).map csvRow)) ∧
    csvHeader = "Date,Avg Memory Usage %,Avg YARN Memory Available %,Avg Runtime Hours,Avg Remaining Capacity GB,Avg Unhealthy Nodes,Cluster Count,Clusters" ∧
    (∀ m : DailyMetrics, csvRow m = String.intercalate ","
        [m.date, toFixed2 m.avgMemoryUsagePercent,
         toFixed2 m.avgYARNMemoryAvailablePercent,
         toFixed2 m.avgRuntimeHours, toFixed2 m.avgRemainingCapacityGB,
         toFixed2 m.avgUnhealthyNodes, toString m.clusterCount,
         String.intercalate ";" m.clusters]) ∧
    (∀ q : ℚ, ∃ s t : String, toFixed2 q = s ++ "." ++ t ∧ t.length = 2 ∧
        t.toList.all Char.isDigit = true) := by
  refine ⟨rfl, fun d ds => rfl, rfl, fun m => rfl, fun q => ?_⟩
  refine ⟨(if q < 0 then "-" else "") ++
      toString ((⌊|q| * 100 + 1 / 2⌋).toNat / 100),
    pad2 ((⌊|q| * 100 + 1 / 2⌋).toNat % 100), rfl, ?_, ?_⟩
  · exact (pad2_two_digits _ (Nat.mod_lt _ (by norm_num))).1
  · exact (pad2_two_digits _ (Nat.mod_lt _ (by norm_num))).2

/-- C10: when exactly one of the two date bounds is supplied, `filterEMRData`
applies no date criterion at all: the result is exactly the records passing
the cluster-name criterion, whatever their timestamps. -/
theorem filter_single_date_bound_is_ignored (data : List EMRClusterRecord)
    (filters : FilterOptions)
    (h : filters.startDate.isSome ≠ filters.endDate.isSome) :
    filterEMRData data filters =
      data.filter (fun r => !clusterNameReject filters r) := by
  unfold filterEMRData
  congr 1
  funext r
  rcases hs : filters.startDate with _ | s <;>
    rcases he : filters.endDate with _ | e
  · rw [hs, he] at h; simp at h
  · by_cases hr : clusterNameReject filters r <;> simp [hs, he, hr]
  · by_cases hr : clusterNameReject filters r <;> simp [hs, he, hr]
  · rw [hs, he] at h; simp at h

/-- C10 witness: a name filter plus a start date with no end date filters by
name only. -/
theorem filter_single_date_bound_is_ignored_witness :
    filterEMRData [recA, recB] filterOnlyStart =
      [recA, recB].filter (fun r => !clusterNameReject filterOnlyStart r) :=
  filter_single_date_bound_is_ignored [recA, recB] filterOnlyStart (by decide)
